import Mathlib

/-!
Verification of the sample-format conversion engine and buffer access
protocol of the soundio-rs audio library.

The Rust source is shallowly embedded: unsigned machine integers (u8, u16,
u32, and the u32 backing of the `u24` newtype) become `ℕ`, signed machine
integers (i8, i16, i32, and the i32 backing of the `i24` newtype) become
`ℤ`, with every wrapping operation, truncating cast and shift made explicit
as arithmetic modulo a power of two.  IEEE floats are modelled as exact
rationals (`ℚ`); every float value appearing in a theorem below is exactly
representable in f32/f64 and the arithmetic steps on it are exact, so the
rational model agrees with the IEEE evaluation there.  Raw-byte functions
act on a byte-addressed memory `Mem = ℕ → ℕ`, mirroring the `*const u8` /
`*mut u8` pointer interface of the source.
-/

/-! ## Two's-complement helpers (Rust `as iN` / `as uN` casts) -/

/-- Interpretation of a machine word as a signed N-bit integer (the Rust
cast `as i8` applied to an unsigned value). -/
def toSigned8 (x : ℕ) : ℤ :=
  if x % 0x100 < 0x80 then (x % 0x100 : ℕ) else (x % 0x100 : ℕ) - 0x100

/-- `as i16` applied to an unsigned value. -/
def toSigned16 (x : ℕ) : ℤ :=
  if x % 0x10000 < 0x8000 then (x % 0x10000 : ℕ) else (x % 0x10000 : ℕ) - 0x10000

/-- `as i32` applied to an unsigned value. -/
def toSigned32 (x : ℕ) : ℤ :=
  if x % 0x100000000 < 0x80000000 then (x % 0x100000000 : ℕ)
  else (x % 0x100000000 : ℕ) - 0x100000000

/-- The Rust cast `as u8` of a signed value (two's-complement bits). -/
def toUnsigned8 (x : ℤ) : ℕ := (x % 0x100).toNat

/-- The Rust cast `as u16` of a signed value. -/
def toUnsigned16 (x : ℤ) : ℕ := (x % 0x10000).toNat

/-- The Rust cast `as u32` of a signed value. -/
def toUnsigned32 (x : ℤ) : ℕ := (x % 0x100000000).toNat

/-- Truncating `as i8` of a signed value of a wider type. -/
def asI8 (x : ℤ) : ℤ := toSigned8 (toUnsigned8 x)

/-- Truncating `as i16` of a signed value of a wider type. -/
def asI16 (x : ℤ) : ℤ := toSigned16 (toUnsigned16 x)

/-- Truncating `as i32` of a signed value of a wider type. -/
def asI32 (x : ℤ) : ℤ := toSigned32 (toUnsigned32 x)

/-! ## Range constants (src/sample.rs and the Rust primitive ranges)

`i24.min_value` transcribes the source literal `-0x0080000` from
src/sample.rs verbatim. -/

def u24.min_value : ℕ := 0x00000000

def u24.max_value : ℕ := 0x00FFFFFF

def i24.min_value : ℤ := -0x0080000

def i24.max_value : ℤ := 0x007FFFFF

/-! ## Sample trait impl for u8 (src/sample.rs) -/

def u8.from_u8 (v : ℕ) : ℕ := v

def u8.from_u16 (v : ℕ) : ℕ := v / 0x100 % 0x100

def u8.from_u24 (v : ℕ) : ℕ := v / 0x10000 % 0x100

def u8.from_u32 (v : ℕ) : ℕ := v / 0x1000000 % 0x100

def u8.from_i8 (v : ℤ) : ℕ := u8.from_u8 ((toUnsigned8 v + 0x80) % 0x100)

def u8.from_i16 (v : ℤ) : ℕ := u8.from_u16 ((toUnsigned16 v + 0x8000) % 0x10000)

def u8.from_i24 (v : ℤ) : ℕ :=
  u8.from_u24 ((toUnsigned32 v + 0x800000) % 0x100000000 % 0x1000000)

def u8.from_i32 (v : ℤ) : ℕ := u8.from_u32 ((toUnsigned32 v + 0x80000000) % 0x100000000)

/-! ## Sample trait impl for u16 -/

def u16.from_u8 (v : ℕ) : ℕ := v * 0x100 % 0x10000

def u16.from_u16 (v : ℕ) : ℕ := v

def u16.from_u24 (v : ℕ) : ℕ := v / 0x100 % 0x10000

def u16.from_u32 (v : ℕ) : ℕ := v / 0x10000 % 0x10000

def u16.from_i8 (v : ℤ) : ℕ := u16.from_u8 ((toUnsigned8 v + 0x80) % 0x100)

def u16.from_i16 (v : ℤ) : ℕ := u16.from_u16 ((toUnsigned16 v + 0x8000) % 0x10000)

def u16.from_i24 (v : ℤ) : ℕ :=
  u16.from_u24 ((toUnsigned32 v + 0x800000) % 0x100000000 % 0x1000000)

def u16.from_i32 (v : ℤ) : ℕ := u16.from_u32 ((toUnsigned32 v + 0x80000000) % 0x100000000)

/-! ## Sample trait impl for u24 (values are the u32 backing integer) -/

def u24.from_u8 (v : ℕ) : ℕ := v * 0x10000 % 0x100000000

def u24.from_u16 (v : ℕ) : ℕ := v * 0x100 % 0x100000000

def u24.from_u24 (v : ℕ) : ℕ := v

def u24.from_u32 (v : ℕ) : ℕ := v / 0x100

def u24.from_i8 (v : ℤ) : ℕ := u24.from_u8 ((toUnsigned8 v + 0x80) % 0x100)

def u24.from_i16 (v : ℤ) : ℕ := u24.from_u16 ((toUnsigned16 v + 0x8000) % 0x10000)

def u24.from_i24 (v : ℤ) : ℕ :=
  u24.from_u24 ((toUnsigned32 v + 0x800000) % 0x100000000 % 0x1000000)

def u24.from_i32 (v : ℤ) : ℕ := u24.from_u32 ((toUnsigned32 v + 0x80000000) % 0x100000000)

/-! ## Sample trait impl for u32 -/

def u32.from_u8 (v : ℕ) : ℕ := v * 0x1000000 % 0x100000000

def u32.from_u16 (v : ℕ) : ℕ := v * 0x10000 % 0x100000000

def u32.from_u24 (v : ℕ) : ℕ := v * 0x100 % 0x100000000

def u32.from_u32 (v : ℕ) : ℕ := v

def u32.from_i8 (v : ℤ) : ℕ := u32.from_u8 ((toUnsigned8 v + 0x80) % 0x100)

def u32.from_i16 (v : ℤ) : ℕ := u32.from_u16 ((toUnsigned16 v + 0x8000) % 0x10000)

def u32.from_i24 (v : ℤ) : ℕ :=
  u32.from_u24 ((toUnsigned32 v + 0x800000) % 0x100000000 % 0x1000000)

def u32.from_i32 (v : ℤ) : ℕ := u32.from_u32 ((toUnsigned32 v + 0x80000000) % 0x100000000)

/-! ## Sample trait impl for i8 -/

def i8.from_i8 (v : ℤ) : ℤ := v

def i8.from_i16 (v : ℤ) : ℤ := asI8 (v / 0x100)

def i8.from_i24 (v : ℤ) : ℤ := asI8 (v / 0x10000)

def i8.from_i32 (v : ℤ) : ℤ := asI8 (v / 0x1000000)

def i8.from_u8 (v : ℕ) : ℤ := i8.from_i8 (toSigned8 ((v + 0x80) % 0x100))

def i8.from_u16 (v : ℕ) : ℤ := i8.from_i16 (toSigned16 ((v + 0x8000) % 0x10000))

def i8.from_u24 (v : ℕ) : ℤ :=
  i8.from_i24 (toSigned32 ((v + 0x800000) % 0x100000000 % 0x1000000))

def i8.from_u32 (v : ℕ) : ℤ := i8.from_i32 (toSigned32 ((v + 0x80000000) % 0x100000000))

/-! ## Sample trait impl for i16 -/

def i16.from_i8 (v : ℤ) : ℤ := asI16 (v * 0x100)

def i16.from_i16 (v : ℤ) : ℤ := v

def i16.from_i24 (v : ℤ) : ℤ := asI16 (v / 0x100)

def i16.from_i32 (v : ℤ) : ℤ := asI16 (v / 0x10000)

def i16.from_u8 (v : ℕ) : ℤ := i16.from_i8 (toSigned8 ((v + 0x80) % 0x100))

def i16.from_u16 (v : ℕ) : ℤ := i16.from_i16 (toSigned16 ((v + 0x8000) % 0x10000))

def i16.from_u24 (v : ℕ) : ℤ :=
  i16.from_i24 (toSigned32 ((v + 0x800000) % 0x100000000 % 0x1000000))

def i16.from_u32 (v : ℕ) : ℤ := i16.from_i32 (toSigned32 ((v + 0x80000000) % 0x100000000))

/-! ## Sample trait impl for i24 (values are the i32 backing integer) -/

def i24.from_i8 (v : ℤ) : ℤ := asI32 (v * 0x10000)

def i24.from_i16 (v : ℤ) : ℤ := asI32 (v * 0x100)

def i24.from_i24 (v : ℤ) : ℤ := v

def i24.from_i32 (v : ℤ) : ℤ := v / 0x100

def i24.from_u8 (v : ℕ) : ℤ := i24.from_i8 (toSigned8 ((v + 0x80) % 0x100))

def i24.from_u16 (v : ℕ) : ℤ := i24.from_i16 (toSigned16 ((v + 0x8000) % 0x10000))

def i24.from_u24 (v : ℕ) : ℤ :=
  i24.from_i24 (toSigned32 ((v + 0x800000) % 0x100000000 % 0x1000000))

def i24.from_u32 (v : ℕ) : ℤ := i24.from_i32 (toSigned32 ((v + 0x80000000) % 0x100000000))

/-! ## Sample trait impl for i32 -/

def i32.from_i8 (v : ℤ) : ℤ := asI32 (v * 0x1000000)

def i32.from_i16 (v : ℤ) : ℤ := asI32 (v * 0x10000)

def i32.from_i24 (v : ℤ) : ℤ := asI32 (v * 0x100)

def i32.from_i32 (v : ℤ) : ℤ := v

def i32.from_u8 (v : ℕ) : ℤ := i32.from_i8 (toSigned8 ((v + 0x80) % 0x100))

def i32.from_u16 (v : ℕ) : ℤ := i32.from_i16 (toSigned16 ((v + 0x8000) % 0x10000))

def i32.from_u24 (v : ℕ) : ℤ :=
  i32.from_i24 (toSigned32 ((v + 0x800000) % 0x100000000 % 0x1000000))

def i32.from_u32 (v : ℕ) : ℤ := i32.from_i32 (toSigned32 ((v + 0x80000000) % 0x100000000))

/-! ## Float -> integer conversions (impl_float_methods / impl_float_methods_24)

IEEE floats are modelled as exact rationals.  The Rust `as` cast from a
float to an integer type truncates toward zero (the clamp in the source
keeps the truncated value in range, so the saturating behaviour of `as`
never fires inside the in-range branch). -/

/-- Truncation toward zero of a rational, the float-to-integer `as` cast. -/
def truncRat (q : ℚ) : ℤ := Int.tdiv q.num (q.den : ℤ)

def u8.from_f64 (v : ℚ) : ℕ :=
  let x : ℚ := 1/2 * ((v + 1) * ((0xFF : ℚ) + 1) + (1 - v) * (0 : ℚ))
  if x < (0 : ℚ) then 0
  else if x > (0xFF : ℚ) then 0xFF
  else (truncRat x).toNat

def u8.from_f32 (v : ℚ) : ℕ := u8.from_f64 v

def u16.from_f64 (v : ℚ) : ℕ :=
  let x : ℚ := 1/2 * ((v + 1) * ((0xFFFF : ℚ) + 1) + (1 - v) * (0 : ℚ))
  if x < (0 : ℚ) then 0
  else if x > (0xFFFF : ℚ) then 0xFFFF
  else (truncRat x).toNat

def u16.from_f32 (v : ℚ) : ℕ := u16.from_f64 v

def u24.from_f64 (v : ℚ) : ℕ :=
  let x : ℚ := 1/2 * ((v + 1) * ((u24.max_value : ℚ) + 1) + (1 - v) * (u24.min_value : ℚ))
  if x < (u24.min_value : ℚ) then u24.min_value
  else if x > (u24.max_value : ℚ) then u24.max_value
  else (truncRat x).toNat

def u24.from_f32 (v : ℚ) : ℕ := u24.from_f64 v

def u32.from_f64 (v : ℚ) : ℕ :=
  let x : ℚ := 1/2 * ((v + 1) * ((0xFFFFFFFF : ℚ) + 1) + (1 - v) * (0 : ℚ))
  if x < (0 : ℚ) then 0
  else if x > (0xFFFFFFFF : ℚ) then 0xFFFFFFFF
  else (truncRat x).toNat

def u32.from_f32 (v : ℚ) : ℕ := u32.from_f64 v

def i8.from_f64 (v : ℚ) : ℤ :=
  let x : ℚ := 1/2 * ((v + 1) * ((0x7F : ℚ) + 1) + (1 - v) * (-0x80 : ℚ))
  if x < (-0x80 : ℚ) then -0x80
  else if x > (0x7F : ℚ) then 0x7F
  else truncRat x

def i8.from_f32 (v : ℚ) : ℤ := i8.from_f64 v

def i16.from_f64 (v : ℚ) : ℤ :=
  let x : ℚ := 1/2 * ((v + 1) * ((0x7FFF : ℚ) + 1) + (1 - v) * (-0x8000 : ℚ))
  if x < (-0x8000 : ℚ) then -0x8000
  else if x > (0x7FFF : ℚ) then 0x7FFF
  else truncRat x

def i16.from_f32 (v : ℚ) : ℤ := i16.from_f64 v

def i24.from_f64 (v : ℚ) : ℤ :=
  let x : ℚ := 1/2 * ((v + 1) * ((i24.max_value : ℚ) + 1) + (1 - v) * (i24.min_value : ℚ))
  if x < (i24.min_value : ℚ) then i24.min_value
  else if x > (i24.max_value : ℚ) then i24.max_value
  else truncRat x

def i24.from_f32 (v : ℚ) : ℤ := i24.from_f64 v

def i32.from_f64 (v : ℚ) : ℤ :=
  let x : ℚ := 1/2 * ((v + 1) * ((0x7FFFFFFF : ℚ) + 1) + (1 - v) * (-0x80000000 : ℚ))
  if x < (-0x80000000 : ℚ) then -0x80000000
  else if x > (0x7FFFFFFF : ℚ) then 0x7FFFFFFF
  else truncRat x

def i32.from_f32 (v : ℚ) : ℤ := i32.from_f64 v

/-! ## Integer -> float conversions (impl_float_from_methods) and f32/f64 -/

def f32.from_u8 (v : ℕ) : ℚ := (v : ℚ) / 128 - 1

def f32.from_u16 (v : ℕ) : ℚ := (v : ℚ) / 32768 - 1

def f32.from_u24 (v : ℕ) : ℚ := (v : ℚ) / 8388608 - 1

def f32.from_u32 (v : ℕ) : ℚ := (v : ℚ) / 2147483648 - 1

def f32.from_i8 (v : ℤ) : ℚ := (v : ℚ) / 128

def f32.from_i16 (v : ℤ) : ℚ := (v : ℚ) / 32768

def f32.from_i24 (v : ℤ) : ℚ := (v : ℚ) / 8388608

def f32.from_i32 (v : ℤ) : ℚ := (v : ℚ) / 2147483648

def f32.from_f32 (v : ℚ) : ℚ := v

def f32.from_f64 (v : ℚ) : ℚ := v

def f64.from_u8 (v : ℕ) : ℚ := (v : ℚ) / 128 - 1

def f64.from_u16 (v : ℕ) : ℚ := (v : ℚ) / 32768 - 1

def f64.from_u24 (v : ℕ) : ℚ := (v : ℚ) / 8388608 - 1

def f64.from_u32 (v : ℕ) : ℚ := (v : ℚ) / 2147483648 - 1

def f64.from_i8 (v : ℤ) : ℚ := (v : ℚ) / 128

def f64.from_i16 (v : ℤ) : ℚ := (v : ℚ) / 32768

def f64.from_i24 (v : ℤ) : ℚ := (v : ℚ) / 8388608

def f64.from_i32 (v : ℤ) : ℚ := (v : ℚ) / 2147483648

def f64.from_f32 (v : ℚ) : ℚ := v

def f64.from_f64 (v : ℚ) : ℚ := v

/-! ## Raw byte (de)serialization over a byte-addressed memory

`Mem` models the raw pointer interface; a value at address `a` is the byte
`m a`.  `from_raw_le`/`from_raw_be` mirror `Self::from_le(*(ptr as *const _))`
and `Self::from_be(...)`; `to_raw_le`/`to_raw_be` mirror the stores.  The
memory layout of an N-byte load/store is expressed positionally, which is
host-endianness independent exactly as `to_le`/`to_be` make the source. -/

def Mem : Type := ℕ → ℕ

def store (m : Mem) (a : ℕ) (b : ℕ) : Mem := fun x => if x = a then b else m x

def storeBytes (m : Mem) (p : ℕ) : List ℕ → Mem
  | [] => m
  | b :: bs => storeBytes (store m p b) (p + 1) bs

/-- The little-endian byte decomposition of an n-byte word. -/
def leBytes : ℕ → ℕ → List ℕ
  | 0, _ => []
  | n + 1, x => x % 256 :: leBytes n (x / 256)

/-- Little-endian load of `n` bytes starting at address `p`. -/
def loadLE (m : Mem) : ℕ → ℕ → ℕ
  | _, 0 => 0
  | p, n + 1 => m p + 256 * loadLE m (p + 1) n

/-- Big-endian load of `n` bytes starting at address `p`. -/
def loadBE (m : Mem) : ℕ → ℕ → ℕ
  | _, 0 => 0
  | p, n + 1 => m p * 2 ^ (8 * n) + loadBE m (p + 1) n

def u8.to_raw_le (v : ℕ) (p : ℕ) (m : Mem) : Mem := storeBytes m p (leBytes 1 v)

def u8.to_raw_be (v : ℕ) (p : ℕ) (m : Mem) : Mem := storeBytes m p (leBytes 1 v).reverse

def u8.from_raw_le (m : Mem) (p : ℕ) : ℕ := loadLE m p 1

def u8.from_raw_be (m : Mem) (p : ℕ) : ℕ := loadBE m p 1

def u16.to_raw_le (v : ℕ) (p : ℕ) (m : Mem) : Mem := storeBytes m p (leBytes 2 v)

def u16.to_raw_be (v : ℕ) (p : ℕ) (m : Mem) : Mem := storeBytes m p (leBytes 2 v).reverse

def u16.from_raw_le (m : Mem) (p : ℕ) : ℕ := loadLE m p 2

def u16.from_raw_be (m : Mem) (p : ℕ) : ℕ := loadBE m p 2

def u32.to_raw_le (v : ℕ) (p : ℕ) (m : Mem) : Mem := storeBytes m p (leBytes 4 v)

def u32.to_raw_be (v : ℕ) (p : ℕ) (m : Mem) : Mem := storeBytes m p (leBytes 4 v).reverse

def u32.from_raw_le (m : Mem) (p : ℕ) : ℕ := loadLE m p 4

def u32.from_raw_be (m : Mem) (p : ℕ) : ℕ := loadBE m p 4

def i8.to_raw_le (v : ℤ) (p : ℕ) (m : Mem) : Mem := storeBytes m p (leBytes 1 (toUnsigned8 v))

def i8.to_raw_be (v : ℤ) (p : ℕ) (m : Mem) : Mem :=
  storeBytes m p (leBytes 1 (toUnsigned8 v)).reverse

def i8.from_raw_le (m : Mem) (p : ℕ) : ℤ := toSigned8 (loadLE m p 1)

def i8.from_raw_be (m : Mem) (p : ℕ) : ℤ := toSigned8 (loadBE m p 1)

def i16.to_raw_le (v : ℤ) (p : ℕ) (m : Mem) : Mem := storeBytes m p (leBytes 2 (toUnsigned16 v))

def i16.to_raw_be (v : ℤ) (p : ℕ) (m : Mem) : Mem :=
  storeBytes m p (leBytes 2 (toUnsigned16 v)).reverse

def i16.from_raw_le (m : Mem) (p : ℕ) : ℤ := toSigned16 (loadLE m p 2)

def i16.from_raw_be (m : Mem) (p : ℕ) : ℤ := toSigned16 (loadBE m p 2)

def i32.to_raw_le (v : ℤ) (p : ℕ) (m : Mem) : Mem := storeBytes m p (leBytes 4 (toUnsigned32 v))

def i32.to_raw_be (v : ℤ) (p : ℕ) (m : Mem) : Mem :=
  storeBytes m p (leBytes 4 (toUnsigned32 v)).reverse

def i32.from_raw_le (m : Mem) (p : ℕ) : ℤ := toSigned32 (loadLE m p 4)

def i32.from_raw_be (m : Mem) (p : ℕ) : ℤ := toSigned32 (loadBE m p 4)

/-! impl_raw_methods_24: the 24-bit reads go through a 4-byte u32 load,
a left shift by 8 (wrapping on u32), a cast to the backing type and a right
shift by 8 (logical for u24, arithmetic for i24).  `from_raw_be` transcribes
the source faithfully: it performs a little-endian 4-byte load at
`ptr.offset(3)`.  The stores write the three low-order bytes one by one. -/

def u24.from_raw_le (m : Mem) (p : ℕ) : ℕ := loadLE m p 4 * 0x100 % 0x100000000 / 0x100

def u24.from_raw_be (m : Mem) (p : ℕ) : ℕ :=
  loadLE m (p + 3) 4 * 0x100 % 0x100000000 / 0x100

def i24.from_raw_le (m : Mem) (p : ℕ) : ℤ :=
  toSigned32 (loadLE m p 4 * 0x100 % 0x100000000) / 0x100

def i24.from_raw_be (m : Mem) (p : ℕ) : ℤ :=
  toSigned32 (loadLE m (p + 3) 4 * 0x100 % 0x100000000) / 0x100

def u24.to_raw_le (v : ℕ) (p : ℕ) (m : Mem) : Mem :=
  store (store (store m p (v % 0x100)) (p + 1) (v / 0x100 % 0x100)) (p + 2) (v / 0x10000 % 0x100)

def u24.to_raw_be (v : ℕ) (p : ℕ) (m : Mem) : Mem :=
  store (store (store m p (v / 0x10000 % 0x100)) (p + 1) (v / 0x100 % 0x100)) (p + 2) (v % 0x100)

def i24.to_raw_le (v : ℤ) (p : ℕ) (m : Mem) : Mem :=
  store (store (store m p (toUnsigned32 v % 0x100)) (p + 1) (toUnsigned32 v / 0x100 % 0x100))
    (p + 2) (toUnsigned32 v / 0x10000 % 0x100)

def i24.to_raw_be (v : ℤ) (p : ℕ) (m : Mem) : Mem :=
  store (store (store m p (toUnsigned32 v / 0x10000 % 0x100)) (p + 1)
    (toUnsigned32 v / 0x100 % 0x100)) (p + 2) (toUnsigned32 v % 0x100)

/-! impl_float_raw_methods: the float raw functions transmute to/from the
same-width unsigned integer; they are modelled at the level of that bit
pattern (a word, `ℕ`).  Note the source's `to_raw_be` applies `to_le`, so
both stores lay down little-endian bytes; the loads do differ. -/

def f32raw.to_raw_le (bits : ℕ) (p : ℕ) (m : Mem) : Mem := storeBytes m p (leBytes 4 bits)

def f32raw.to_raw_be (bits : ℕ) (p : ℕ) (m : Mem) : Mem := storeBytes m p (leBytes 4 bits)

def f32raw.from_raw_le (m : Mem) (p : ℕ) : ℕ := loadLE m p 4

def f32raw.from_raw_be (m : Mem) (p : ℕ) : ℕ := loadBE m p 4

def f64raw.to_raw_le (bits : ℕ) (p : ℕ) (m : Mem) : Mem := storeBytes m p (leBytes 8 bits)

def f64raw.to_raw_be (bits : ℕ) (p : ℕ) (m : Mem) : Mem := storeBytes m p (leBytes 8 bits)

def f64raw.from_raw_le (m : Mem) (p : ℕ) : ℕ := loadLE m p 8

def f64raw.from_raw_be (m : Mem) (p : ℕ) : ℕ := loadBE m p 8

/-! ## Generic caller-side sample values

`set_sample::<T>` / `sample::<T>` are generic over the `Sample` trait; the
caller's value is modelled as a tagged union over the ten representations.
`T::to_X(v)` is defined by `impl_to_methods` as `X::from_T(v)`, which the
`Val.to_X` dispatchers reproduce. -/

inductive Val
  | vu8 (v : ℕ)
  | vu16 (v : ℕ)
  | vu24 (v : ℕ)
  | vu32 (v : ℕ)
  | vi8 (v : ℤ)
  | vi16 (v : ℤ)
  | vi24 (v : ℤ)
  | vi32 (v : ℤ)
  | vf32 (v : ℚ)
  | vf64 (v : ℚ)

def Val.to_u8 : Val → ℕ
  | .vu8 v => u8.from_u8 v
  | .vu16 v => u8.from_u16 v
  | .vu24 v => u8.from_u24 v
  | .vu32 v => u8.from_u32 v
  | .vi8 v => u8.from_i8 v
  | .vi16 v => u8.from_i16 v
  | .vi24 v => u8.from_i24 v
  | .vi32 v => u8.from_i32 v
  | .vf32 v => u8.from_f32 v
  | .vf64 v => u8.from_f64 v

def Val.to_u16 : Val → ℕ
  | .vu8 v => u16.from_u8 v
  | .vu16 v => u16.from_u16 v
  | .vu24 v => u16.from_u24 v
  | .vu32 v => u16.from_u32 v
  | .vi8 v => u16.from_i8 v
  | .vi16 v => u16.from_i16 v
  | .vi24 v => u16.from_i24 v
  | .vi32 v => u16.from_i32 v
  | .vf32 v => u16.from_f32 v
  | .vf64 v => u16.from_f64 v

def Val.to_u24 : Val → ℕ
  | .vu8 v => u24.from_u8 v
  | .vu16 v => u24.from_u16 v
  | .vu24 v => u24.from_u24 v
  | .vu32 v => u24.from_u32 v
  | .vi8 v => u24.from_i8 v
  | .vi16 v => u24.from_i16 v
  | .vi24 v => u24.from_i24 v
  | .vi32 v => u24.from_i32 v
  | .vf32 v => u24.from_f32 v
  | .vf64 v => u24.from_f64 v

def Val.to_u32 : Val → ℕ
  | .vu8 v => u32.from_u8 v
  | .vu16 v => u32.from_u16 v
  | .vu24 v => u32.from_u24 v
  | .vu32 v => u32.from_u32 v
  | .vi8 v => u32.from_i8 v
  | .vi16 v => u32.from_i16 v
  | .vi24 v => u32.from_i24 v
  | .vi32 v => u32.from_i32 v
  | .vf32 v => u32.from_f32 v
  | .vf64 v => u32.from_f64 v

def Val.to_i8 : Val → ℤ
  | .vu8 v => i8.from_u8 v
  | .vu16 v => i8.from_u16 v
  | .vu24 v => i8.from_u24 v
  | .vu32 v => i8.from_u32 v
  | .vi8 v => i8.from_i8 v
  | .vi16 v => i8.from_i16 v
  | .vi24 v => i8.from_i24 v
  | .vi32 v => i8.from_i32 v
  | .vf32 v => i8.from_f32 v
  | .vf64 v => i8.from_f64 v

def Val.to_i16 : Val → ℤ
  | .vu8 v => i16.from_u8 v
  | .vu16 v => i16.from_u16 v
  | .vu24 v => i16.from_u24 v
  | .vu32 v => i16.from_u32 v
  | .vi8 v => i16.from_i8 v
  | .vi16 v => i16.from_i16 v
  | .vi24 v => i16.from_i24 v
  | .vi32 v => i16.from_i32 v
  | .vf32 v => i16.from_f32 v
  | .vf64 v => i16.from_f64 v

def Val.to_i24 : Val → ℤ
  | .vu8 v => i24.from_u8 v
  | .vu16 v => i24.from_u16 v
  | .vu24 v => i24.from_u24 v
  | .vu32 v => i24.from_u32 v
  | .vi8 v => i24.from_i8 v
  | .vi16 v => i24.from_i16 v
  | .vi24 v => i24.from_i24 v
  | .vi32 v => i24.from_i32 v
  | .vf32 v => i24.from_f32 v
  | .vf64 v => i24.from_f64 v

def Val.to_i32 : Val → ℤ
  | .vu8 v => i32.from_u8 v
  | .vu16 v => i32.from_u16 v
  | .vu24 v => i32.from_u24 v
  | .vu32 v => i32.from_u32 v
  | .vi8 v => i32.from_i8 v
  | .vi16 v => i32.from_i16 v
  | .vi24 v => i32.from_i24 v
  | .vi32 v => i32.from_i32 v
  | .vf32 v => i32.from_f32 v
  | .vf64 v => i32.from_f64 v

def Val.to_f32 : Val → ℚ
  | .vu8 v => f32.from_u8 v
  | .vu16 v => f32.from_u16 v
  | .vu24 v => f32.from_u24 v
  | .vu32 v => f32.from_u32 v
  | .vi8 v => f32.from_i8 v
  | .vi16 v => f32.from_i16 v
  | .vi24 v => f32.from_i24 v
  | .vi32 v => f32.from_i32 v
  | .vf32 v => f32.from_f32 v
  | .vf64 v => f32.from_f64 v

def Val.to_f64 : Val → ℚ
  | .vu8 v => f64.from_u8 v
  | .vu16 v => f64.from_u16 v
  | .vu24 v => f64.from_u24 v
  | .vu32 v => f64.from_u32 v
  | .vi8 v => f64.from_i8 v
  | .vi16 v => f64.from_i16 v
  | .vi24 v => f64.from_i24 v
  | .vi32 v => f64.from_i32 v
  | .vf32 v => f64.from_f32 v
  | .vf64 v => f64.from_f64 v

/-! ## Buffer access protocol (src/outstream.rs, src/instream.rs)

The libsoundio C calls (`soundio_outstream_begin_write`,
`soundio_outstream_end_write`, and the instream counterparts) are external
collaborators: their outcome enters the model as an explicit argument.
A Rust panic (a failed `assert!`) is the `panic` outcome / a `none`. -/

inductive SoundIoFormat
  | Invalid
  | S8
  | U8
  | S16LE
  | S16BE
  | U16LE
  | U16BE
  | S24LE
  | S24BE
  | U24LE
  | U24BE
  | S32LE
  | S32BE
  | U32LE
  | U32BE
  | Float32LE
  | Float32BE
  | Float64LE
  | Float64BE
deriving DecidableEq

structure SoundIoChannelArea where
  ptr : ℕ
  step : ℕ
deriving DecidableEq

/-- The stream-level data read through the raw stream pointer: the
negotiated format and `layout.channel_count`. -/
structure StreamInfo where
  format : SoundIoFormat
  channel_count : ℕ
deriving DecidableEq

/-- The IEEE bit patterns of float values, used by the float branches of
`set_sample` (`std::mem::transmute`).  The encodings are kept abstract:
nothing in the verified claims depends on them beyond the width of the
words they produce. -/
structure RawEnc where
  f32bits : ℚ → ℕ
  f64bits : ℚ → ℕ

structure OutStreamWriter where
  frame_count_min : ℕ
  frame_count_max : ℕ
  write_started : Bool
  channel_areas : List SoundIoChannelArea
  frame_count : ℕ
deriving DecidableEq

structure InStreamReader where
  frame_count_min : ℕ
  frame_count_max : ℕ
  read_started : Bool
  channel_areas : List SoundIoChannelArea
  frame_count : ℕ
deriving DecidableEq

/-- Outcome of the external begin call: an error code, or the granted
frame count together with the per-channel areas it exposes. -/
inductive RawBeginResult
  | err (e : ℤ)
  | ok (actual : ℕ) (areas : List SoundIoChannelArea)
deriving DecidableEq

/-- What `begin_write`/`begin_read` does from the caller's point of view:
a contract-violation panic, an error return, or `Ok(n)`. -/
inductive BeginOutcome
  | panic
  | fail (e : ℤ)
  | ok (n : ℕ)
deriving DecidableEq

/-- OutStreamWriter::begin_write.  The leading `assert!` is the contract
check on the requested frame count; there is no check of `write_started`.
On raw success the granted count is recorded (and `write_started` set)
before the zero-frame early return; the areas are copied only when the
granted count is nonzero. -/
def begin_write (info : StreamInfo) (w : OutStreamWriter) (frame_count : ℕ)
    (raw : RawBeginResult) : OutStreamWriter × BeginOutcome :=
  if frame_count ≥ w.frame_count_min ∧ frame_count ≤ w.frame_count_max then
    match raw with
    | .err e => (w, .fail e)
    | .ok actual areas =>
      let w1 := { w with write_started := true, frame_count := actual }
      if actual = 0 then (w1, .ok 0)
      else ({ w1 with channel_areas := areas.take info.channel_count }, .ok actual)
  else (w, .panic)

/-- InStreamReader::begin_read, line for line the same protocol. -/
def begin_read (info : StreamInfo) (r : InStreamReader) (frame_count : ℕ)
    (raw : RawBeginResult) : InStreamReader × BeginOutcome :=
  if frame_count ≥ r.frame_count_min ∧ frame_count ≤ r.frame_count_max then
    match raw with
    | .err e => (r, .fail e)
    | .ok actual areas =>
      let r1 := { r with read_started := true, frame_count := actual }
      if actual = 0 then (r1, .ok 0)
      else ({ r1 with channel_areas := areas.take info.channel_count }, .ok actual)
  else (r, .panic)

/-- OutStreamWriter::end_write.  `raw_err` is the result of the external
`soundio_outstream_end_write` call; it is consulted only when a write was
started, and `write_started` is cleared only on success (a nonzero code is
printed and otherwise ignored). -/
def end_write (w : OutStreamWriter) (raw_err : ℤ) : OutStreamWriter :=
  if w.write_started then
    if raw_err = 0 then { w with write_started := false } else w
  else w

/-- Whether Drop for OutStreamWriter performs a commit attempt: it calls
`soundio_outstream_end_write` exactly when `write_started` is still set. -/
def outstream_drop_commits (w : OutStreamWriter) : Bool := w.write_started

/-- Address computed by `set_sample`/`sample`:
`channel_areas[channel].ptr.offset((frame * step) as isize)`. -/
def sampleAddr (areas : List SoundIoChannelArea) (channel frame : ℕ) : ℕ :=
  (areas.getD channel ⟨0, 0⟩).ptr + frame * (areas.getD channel ⟨0, 0⟩).step

/-- OutStreamWriter::set_sample.  The three `assert!`s become the `none`
branches; the format dispatch calls `to_raw_le`/`to_raw_be` of the wire
representation on `T::to_X(sample)`.  The writer itself is returned
unchanged — the source mutates no field of `self`. -/
def set_sample (enc : RawEnc) (info : StreamInfo) (w : OutStreamWriter)
    (channel frame : ℕ) (sample : Val) (m : Mem) : Option (OutStreamWriter × Mem) :=
  if w.write_started = true then
    if channel < info.channel_count then
      if frame < w.frame_count then
        let p := sampleAddr w.channel_areas channel frame
        match info.format with
        | .S8 => some (w, i8.to_raw_le (Val.to_i8 sample) p m)
        | .U8 => some (w, u8.to_raw_le (Val.to_u8 sample) p m)
        | .S16LE => some (w, i16.to_raw_le (Val.to_i16 sample) p m)
        | .S16BE => some (w, i16.to_raw_be (Val.to_i16 sample) p m)
        | .U16LE => some (w, u16.to_raw_le (Val.to_u16 sample) p m)
        | .U16BE => some (w, u16.to_raw_be (Val.to_u16 sample) p m)
        | .S24LE => some (w, i24.to_raw_le (Val.to_i24 sample) p m)
        | .S24BE => some (w, i24.to_raw_be (Val.to_i24 sample) p m)
        | .U24LE => some (w, u24.to_raw_le (Val.to_u24 sample) p m)
        | .U24BE => some (w, u24.to_raw_be (Val.to_u24 sample) p m)
        | .S32LE => some (w, i32.to_raw_le (Val.to_i32 sample) p m)
        | .S32BE => some (w, i32.to_raw_be (Val.to_i32 sample) p m)
        | .U32LE => some (w, u32.to_raw_le (Val.to_u32 sample) p m)
        | .U32BE => some (w, u32.to_raw_be (Val.to_u32 sample) p m)
        | .Float32LE => some (w, f32raw.to_raw_le (enc.f32bits (Val.to_f32 sample)) p m)
        | .Float32BE => some (w, f32raw.to_raw_be (enc.f32bits (Val.to_f32 sample)) p m)
        | .Float64LE => some (w, f64raw.to_raw_le (enc.f64bits (Val.to_f64 sample)) p m)
        | .Float64BE => some (w, f64raw.to_raw_be (enc.f64bits (Val.to_f64 sample)) p m)
        | .Invalid => none
      else none
    else none
  else none

/-- Modelled from the spec: the per-variant storage width in bytes
(`soundio_get_bytes_per_sample` lives in the C library, outside src/);
each variant fixes a storage width of 1, 2, 3, 4 or 8 bytes, the 24-bit
variants storing their value in 3 bytes. -/
def bytesPerSample : SoundIoFormat → ℕ
  | .Invalid => 0
  | .S8 => 1
  | .U8 => 1
  | .S16LE => 2
  | .S16BE => 2
  | .U16LE => 2
  | .U16BE => 2
  | .S24LE => 3
  | .S24BE => 3
  | .U24LE => 3
  | .U24BE => 3
  | .S32LE => 4
  | .S32BE => 4
  | .U32LE => 4
  | .U32BE => 4
  | .Float32LE => 4
  | .Float32BE => 4
  | .Float64LE => 8
  | .Float64BE => 8

/-! ## Concrete fixtures used by closed theorems and witnesses -/

/-- An all-zero memory. -/
def memZero : Mem := fun _ => 0

/-- A memory whose byte at address 3 is 1 and every other byte is 0:
it agrees with `memZero` on the 3-byte window at address 0. -/
def memByte3 : Mem := fun a => if a = 3 then 1 else 0

/-- A memory filled with the byte 0x25. -/
def mem37 : Mem := fun _ => 0x25

/-- A fixture float-bit encoding (the S8 scenarios never consult it). -/
def enc0 : RawEnc := ⟨fun _ => 0, fun _ => 0⟩

/-- Stream fixture: negotiated format 8-bit signed, 2 channels. -/
def info0 : StreamInfo := ⟨SoundIoFormat.S8, 2⟩

/-- Two channel areas, stride 1 byte. -/
def areas0 : List SoundIoChannelArea := [⟨0, 1⟩, ⟨100, 1⟩]

/-- A fresh writer for a callback window of `[0, 64]`. -/
def w_idle : OutStreamWriter := ⟨0, 64, false, [], 0⟩

/-- A writer after a successful 64-frame `begin_write`. -/
def w_started : OutStreamWriter := ⟨0, 64, true, areas0, 64⟩

/-- A fresh reader for a callback window of `[0, 64]`. -/
def r_idle : InStreamReader := ⟨0, 64, false, [], 0⟩

/-! ## Helper lemmas on the byte memory -/

theorem store_outside (m : Mem) (p b a : ℕ) (h : a ≠ p) : store m p b a = m a := by
  simp [store, h]

theorem storeBytes_outside (bs : List ℕ) (m : Mem) (p a : ℕ)
    (h : a < p ∨ p + bs.length ≤ a) : storeBytes m p bs a = m a := by
  induction bs generalizing m p with
  | nil => rfl
  | cons b bs ih =>
    simp only [storeBytes]
    rw [ih (store m p b) (p + 1) (by simp only [List.length_cons] at h; omega)]
    exact store_outside m p b a (by simp only [List.length_cons] at h; omega)

theorem leBytes_length (n : ℕ) (x : ℕ) : (leBytes n x).length = n := by
  induction n generalizing x with
  | zero => rfl
  | succ n ih => simp [leBytes, ih]

/-! ## The claims -/

/-- Claim C1.  The sign-flip round trip is NOT bijective for the 24-bit
width.  The unsigned-to-signed-and-back direction works (first conjunct,
the direction the source tests), but `i24::from_u24` omits the sign
extension of its masked backing word: starting from the signed value
`i24(-1)`, converting to u24 gives backing `0x7FFFFF`, and converting back
yields backing `16777215 = 0xFFFFFF`, not `-1`.  The code contradicts its
own trait documentation (`to_u24` is declared "the inverse of
`from_u24`", and same-width sign conversion is declared lossless). -/
theorem claim1_sign_flip_24bit_failure :
    u24.from_i24 (i24.from_u24 5) = 5 ∧
    u24.from_i24 (-1) = 0x7FFFFF ∧
    i24.from_u24 0x7FFFFF = 16777215 ∧
    i24.from_u24 (u24.from_i24 (-1)) ≠ -1 := by decide

/-- Claim C4.  The 24-bit backing-domain invariant fails twice in the
source: `i24::min_value()` is the literal `-0x0080000` = -2^19, not the
specified -2^23 = -8388608, and `i24::from_u24` produces the backing
integer 8388608 = 2^23 on input `u24(0)`, which exceeds `i24::max_value()`
— no sign extension restricts it to `[-2^23, 2^23-1]`. -/
theorem claim4_i24_backing_failure :
    i24.min_value = -524288 ∧
    i24.min_value ≠ -8388608 ∧
    i24.from_u24 0 = 8388608 ∧
    i24.max_value < i24.from_u24 0 := by decide

/-- Claim C5.  The 24-bit big-endian read is NOT determined by the first
3 bytes of its window: `from_raw_be` performs a little-endian 4-byte load
at `ptr.offset(3)`, so two windows that agree on bytes 0..2 (here
`memZero` and `memByte3`, which differ only at address 3) decode to
different values. -/
theorem claim5_from_raw_be_reads_beyond_window :
    memZero 0 = memByte3 0 ∧
    memZero 1 = memByte3 1 ∧
    memZero 2 = memByte3 2 ∧
    u24.from_raw_be memZero 0 = 0 ∧
    u24.from_raw_be memByte3 0 = 1 ∧
    u24.from_raw_be memZero 0 ≠ u24.from_raw_be memByte3 0 := by decide

/-- Claim C6.  The big-endian raw round trip fails for the 24-bit
representations: `to_raw_be` writes the value big-endian into bytes 0..2,
but `from_raw_be` reads little-endian from offset 3, so writing `u24(1)`
into a zero window and reading it back yields 0.  The little-endian round
trip does hold (first conjunct).  The float big-endian writer is also
broken: it applies `to_le`, so the big-endian read returns the
byte-swapped word. -/
theorem claim6_be_round_trip_failure :
    u24.from_raw_le (u24.to_raw_le 5 0 memZero) 0 = 5 ∧
    u24.from_raw_be (u24.to_raw_be 1 0 memZero) 0 = 0 ∧
    u24.from_raw_be (u24.to_raw_be 1 0 memZero) 0 ≠ 1 ∧
    f32raw.from_raw_be (f32raw.to_raw_be 0x01020304 0 memZero) 0 = 0x04030201 := by decide

/-- Claim C7.  Saturation clamps to `$ty::min_value()`, which for i24 is
the typo literal -0x0080000 = -524288, not the representation's minimum
-2^23 = -8388608: an out-of-range float such as -10.0 therefore does not
saturate to the 24-bit minimum.  (For the other representations the
clamp targets are the true bounds, e.g. the u8/i8 conjuncts, matching the
source's own tests.) -/
theorem claim7_i24_saturation_failure :
    u8.from_f64 (-10) = 0 ∧
    u8.from_f64 10 = 0xFF ∧
    i8.from_f64 (-10) = -0x80 ∧
    i8.from_f64 10 = 0x7F ∧
    i24.from_f64 (-10) = i24.min_value ∧
    i24.from_f64 (-10) = -524288 ∧
    i24.from_f64 (-10) ≠ -8388608 := by
  norm_num [u8.from_f64, i8.from_f64, i24.from_f64, i24.min_value, i24.max_value, truncRat]

/-- Claim C8.  The out-of-range half of the contract is enforced (a
request outside `[frame_count_min, frame_count_max]` panics — first two
conjuncts), but a second `begin_write`/`begin_read` while the previous
acquisition is still uncommitted is NOT rejected: after a successful
64-frame begin on the `[0, 64]` window, a second in-range begin simply
runs and returns `Ok(10)`.  The source has no `write_started`/
`read_started` check, contradicting its own doc comment ("You can only
call this once per callback otherwise it panics"). -/
theorem claim8_double_begin_not_rejected :
    (begin_write info0 w_idle 100 (RawBeginResult.ok 100 areas0)).2 = BeginOutcome.panic ∧
    (begin_read info0 r_idle 100 (RawBeginResult.ok 100 areas0)).2 = BeginOutcome.panic ∧
    (begin_write info0 w_idle 64 (RawBeginResult.ok 64 areas0)).1.write_started = true ∧
    (begin_write info0 (begin_write info0 w_idle 64 (RawBeginResult.ok 64 areas0)).1 10
      (RawBeginResult.ok 10 areas0)).2 = BeginOutcome.ok 10 ∧
    (begin_write info0 (begin_write info0 w_idle 64 (RawBeginResult.ok 64 areas0)).1 10
      (RawBeginResult.ok 10 areas0)).2 ≠ BeginOutcome.panic ∧
    (begin_read info0 (begin_read info0 r_idle 64 (RawBeginResult.ok 64 areas0)).1 10
      (RawBeginResult.ok 10 areas0)).2 = BeginOutcome.ok 10 := by decide

/-- Claim C2.  Widen-then-narrow identity: for each of the twelve
narrower-to-wider pairs of the same signedness, widening (left shift into
the most-significant bits) followed by narrowing (right shift, truncating)
recovers the original value, for every value of the narrow representation
(24-bit values range over the documented backing domain). -/
theorem claim2_widen_then_narrow :
    (∀ v : ℕ, v < 0x100 → u8.from_u16 (u16.from_u8 v) = v) ∧
    (∀ v : ℕ, v < 0x100 → u8.from_u24 (u24.from_u8 v) = v) ∧
    (∀ v : ℕ, v < 0x100 → u8.from_u32 (u32.from_u8 v) = v) ∧
    (∀ v : ℕ, v < 0x10000 → u16.from_u24 (u24.from_u16 v) = v) ∧
    (∀ v : ℕ, v < 0x10000 → u16.from_u32 (u32.from_u16 v) = v) ∧
    (∀ v : ℕ, v < 0x1000000 → u24.from_u32 (u32.from_u24 v) = v) ∧
    (∀ v : ℤ, -0x80 ≤ v → v < 0x80 → i8.from_i16 (i16.from_i8 v) = v) ∧
    (∀ v : ℤ, -0x80 ≤ v → v < 0x80 → i8.from_i24 (i24.from_i8 v) = v) ∧
    (∀ v : ℤ, -0x80 ≤ v → v < 0x80 → i8.from_i32 (i32.from_i8 v) = v) ∧
    (∀ v : ℤ, -0x8000 ≤ v → v < 0x8000 → i16.from_i24 (i24.from_i16 v) = v) ∧
    (∀ v : ℤ, -0x8000 ≤ v → v < 0x8000 → i16.from_i32 (i32.from_i16 v) = v) ∧
    (∀ v : ℤ, -0x800000 ≤ v → v < 0x800000 → i24.from_i32 (i32.from_i24 v) = v) := by
  refine ⟨?_, ?_, ?_, ?_, ?_, ?_, ?_, ?_, ?_, ?_, ?_, ?_⟩
  · intro v h
    simp only [u8.from_u16, u16.from_u8]
    omega
  · intro v h
    simp only [u8.from_u24, u24.from_u8]
    omega
  · intro v h
    simp only [u8.from_u32, u32.from_u8]
    omega
  · intro v h
    simp only [u16.from_u24, u24.from_u16]
    omega
  · intro v h
    simp only [u16.from_u32, u32.from_u16]
    omega
  · intro v h
    simp only [u24.from_u32, u32.from_u24]
    omega
  · intro v h1 h2
    simp only [i8.from_i16, i16.from_i8, asI8, asI16, toSigned8, toSigned16, toUnsigned8,
      toUnsigned16]
    split_ifs <;> omega
  · intro v h1 h2
    simp only [i8.from_i24, i24.from_i8, asI8, asI32, toSigned8, toSigned32, toUnsigned8,
      toUnsigned32]
    split_ifs <;> omega
  · intro v h1 h2
    simp only [i8.from_i32, i32.from_i8, asI8, asI32, toSigned8, toSigned32, toUnsigned8,
      toUnsigned32]
    split_ifs <;> omega
  · intro v h1 h2
    simp only [i16.from_i24, i24.from_i16, asI16, asI32, toSigned16, toSigned32, toUnsigned16,
      toUnsigned32]
    split_ifs <;> omega
  · intro v h1 h2
    simp only [i16.from_i32, i32.from_i16, asI16, asI32, toSigned16, toSigned32, toUnsigned16,
      toUnsigned32]
    split_ifs <;> omega
  · intro v h1 h2
    simp only [i24.from_i32, i32.from_i24, asI32, toSigned32, toUnsigned32]
    split_ifs <;> omega

/-- Claim C2 witness: the identity evaluated at one concrete value per
width pair, including negative signed values. -/
theorem claim2_widen_then_narrow_witness :
    u8.from_u16 (u16.from_u8 200) = 200 ∧
    u8.from_u24 (u24.from_u8 200) = 200 ∧
    u8.from_u32 (u32.from_u8 200) = 200 ∧
    u16.from_u24 (u24.from_u16 40000) = 40000 ∧
    u16.from_u32 (u32.from_u16 40000) = 40000 ∧
    u24.from_u32 (u32.from_u24 9000000) = 9000000 ∧
    i8.from_i16 (i16.from_i8 (-100)) = -100 ∧
    i8.from_i24 (i24.from_i8 (-100)) = -100 ∧
    i8.from_i32 (i32.from_i8 (-100)) = -100 ∧
    i16.from_i24 (i24.from_i16 (-20000)) = -20000 ∧
    i16.from_i32 (i32.from_i16 (-20000)) = -20000 ∧
    i24.from_i32 (i32.from_i24 (-5000000)) = -5000000 := by
  obtain ⟨h1, h2, h3, h4, h5, h6, h7, h8, h9, h10, h11, h12⟩ := claim2_widen_then_narrow
  exact ⟨h1 200 (by decide), h2 200 (by decide), h3 200 (by decide), h4 40000 (by decide),
    h5 40000 (by decide), h6 9000000 (by decide), h7 (-100) (by decide) (by decide),
    h8 (-100) (by decide) (by decide), h9 (-100) (by decide) (by decide),
    h10 (-20000) (by decide) (by decide), h11 (-20000) (by decide) (by decide),
    h12 (-5000000) (by decide) (by decide)⟩

/-- Claim C10.  A failed commit leaves the cursor Acquired: when
`write_started` is set and the external `soundio_outstream_end_write`
reports a nonzero error, `end_write` returns with the writer completely
unchanged (the flag is cleared only on a zero result), so the drop
handler, which commits exactly when `write_started` is still set, attempts
the commit a second time; on success the flag is cleared and drop does
nothing. -/
theorem claim10_end_write_error_keeps_acquired (w : OutStreamWriter) (e : ℤ)
    (hs : w.write_started = true) (he : e ≠ 0) :
    end_write w e = w ∧
    (end_write w e).write_started = true ∧
    outstream_drop_commits (end_write w e) = true ∧
    (end_write w 0).write_started = false ∧
    outstream_drop_commits (end_write w 0) = false := by
  simp [end_write, outstream_drop_commits, hs, he]

/-- Claim C10 witness: the started fixture writer and the error code 5. -/
theorem claim10_end_write_error_keeps_acquired_witness :
    end_write w_started 5 = w_started ∧
    (end_write w_started 5).write_started = true ∧
    outstream_drop_commits (end_write w_started 5) = true ∧
    (end_write w_started 0).write_started = false ∧
    outstream_drop_commits (end_write w_started 0) = false :=
  claim10_end_write_error_keeps_acquired w_started 5 rfl (by decide)

/-- Claim C3 counterexample.  The spec's scenario assigns the bytes of the
UNSIGNED 8-bit mapping to the signed format: with the negotiated format
8-bit signed (fixture `info0`), writing the float value 0.0 stores the raw
byte 0x00 — not 0x80 as claimed (`i8::from_f32(0.0) = 0`, and `0x80` is
what the unsigned 8-bit format would store). -/
theorem claim3_scenario_counterexample :
    ∃ m' : Mem, set_sample enc0 info0 w_started 0 0 (Val.vf32 0) mem37 = some (w_started, m') ∧
      m' 0 = 0x00 ∧ ¬ m' 0 = 0x80 := by
  have h0 : Val.to_i8 (Val.vf32 0) = 0 := by
    norm_num [Val.to_i8, i8.from_f32, i8.from_f64, truncRat]
  refine ⟨_, rfl, ?_, ?_⟩ <;>
    simp [set_sample, info0, w_started, areas0, sampleAddr, h0, i8.to_raw_le, leBytes,
      storeBytes, store, toUnsigned8]

/-- Claim C3 as amended: with the stream's negotiated format being 8-bit
signed, for every in-range (channel, frame), `set_sample` with the float
value 0.0 stores the raw byte 0x00 at that sample's address, and
`set_sample` with the float value -1.0 stores the raw byte 0x80.  (The
bytes 0x80-for-0.0 and 0x00-for-minus-1.0 of the original claim are the
unsigned 8-bit behaviour.) -/
theorem claim3_scenario_amended (enc : RawEnc) (info : StreamInfo) (w : OutStreamWriter)
    (channel frame : ℕ) (m : Mem) (hfmt : info.format = SoundIoFormat.S8)
    (hs : w.write_started = true) (hc : channel < info.channel_count)
    (hf : frame < w.frame_count) :
    (∃ m' : Mem, set_sample enc info w channel frame (Val.vf32 0) m = some (w, m') ∧
      m' (sampleAddr w.channel_areas channel frame) = 0x00) ∧
    (∃ m' : Mem, set_sample enc info w channel frame (Val.vf32 (-1)) m = some (w, m') ∧
      m' (sampleAddr w.channel_areas channel frame) = 0x80) := by
  have h0 : Val.to_i8 (Val.vf32 0) = 0 := by
    norm_num [Val.to_i8, i8.from_f32, i8.from_f64, truncRat]
  have h1 : Val.to_i8 (Val.vf32 (-1)) = -128 := by
    norm_num [Val.to_i8, i8.from_f32, i8.from_f64, truncRat]
  constructor
  · refine ⟨i8.to_raw_le (Val.to_i8 (Val.vf32 0)) (sampleAddr w.channel_areas channel frame) m,
      ?_, ?_⟩
    · simp [set_sample, hs, hc, hf, hfmt]
    · simp [i8.to_raw_le, h0, leBytes, storeBytes, store, toUnsigned8]
  · refine ⟨i8.to_raw_le (Val.to_i8 (Val.vf32 (-1))) (sampleAddr w.channel_areas channel frame) m,
      ?_, ?_⟩
    · simp [set_sample, hs, hc, hf, hfmt]
    · simp [i8.to_raw_le, h1, leBytes, storeBytes, store, toUnsigned8]

/-- Claim C3 amended witness: the concrete fixture stream (S8, 2 channels,
window `[0, 64]`, 64 granted frames), channel 1, frame 7. -/
theorem claim3_scenario_amended_witness :
    (∃ m' : Mem, set_sample enc0 info0 w_started 1 7 (Val.vf32 0) mem37 = some (w_started, m') ∧
      m' (sampleAddr w_started.channel_areas 1 7) = 0x00) ∧
    (∃ m' : Mem, set_sample enc0 info0 w_started 1 7 (Val.vf32 (-1)) mem37 = some (w_started, m') ∧
      m' (sampleAddr w_started.channel_areas 1 7) = 0x80) :=
  claim3_scenario_amended enc0 info0 w_started 1 7 mem37 rfl rfl (by decide) (by decide)

theorem storeBytes_le_outside (n x : ℕ) (m : Mem) (p a : ℕ)
    (h : a < p ∨ p + n ≤ a) : storeBytes m p (leBytes n x) a = m a :=
  storeBytes_outside _ _ _ _ (by rw [leBytes_length]; exact h)

theorem storeBytes_be_outside (n x : ℕ) (m : Mem) (p a : ℕ)
    (h : a < p ∨ p + n ≤ a) : storeBytes m p (leBytes n x).reverse a = m a :=
  storeBytes_outside _ _ _ _ (by rw [List.length_reverse, leBytes_length]; exact h)

theorem store3_outside (m : Mem) (p b0 b1 b2 a : ℕ) (h : a < p ∨ p + 3 ≤ a) :
    store (store (store m p b0) (p + 1) b1) (p + 2) b2 a = m a := by
  have h0 : a ≠ p := by omega
  have h1 : a ≠ p + 1 := by omega
  have h2 : a ≠ p + 2 := by omega
  simp [store, h0, h1, h2]

/-- Claim C9.  Frame effect of `set_sample`: for every acquired writer and
in-range channel/frame/value (and any float-bit encoding), `set_sample`
succeeds, returns the writer unchanged — so `frame_count_min`,
`frame_count_max` and `frame_count` are untouched — and modifies only the
bytes at `base + frame * stride` through
`base + frame * stride + bytes_per_sample - 1` of the addressed channel
area (3 bytes for the 24-bit formats); every other memory byte is
preserved. -/
theorem claim9_set_sample_frame_effect (enc : RawEnc) (info : StreamInfo)
    (w : OutStreamWriter) (channel frame : ℕ) (sample : Val) (m : Mem)
    (hs : w.write_started = true) (hc : channel < info.channel_count)
    (hf : frame < w.frame_count) (hfmt : ¬ info.format = SoundIoFormat.Invalid) :
    ∃ m' : Mem, set_sample enc info w channel frame sample m = some (w, m') ∧
      ∀ a : ℕ, (a < sampleAddr w.channel_areas channel frame ∨
        sampleAddr w.channel_areas channel frame + bytesPerSample info.format ≤ a) →
        m' a = m a := by
  cases hfm : info.format
  all_goals try (exact absurd hfm hfmt)
  all_goals
    simp [set_sample, hs, hc, hf, hfm, bytesPerSample, i8.to_raw_le, u8.to_raw_le,
      i16.to_raw_le, i16.to_raw_be, u16.to_raw_le, u16.to_raw_be, i24.to_raw_le,
      i24.to_raw_be, u24.to_raw_le, u24.to_raw_be, i32.to_raw_le, i32.to_raw_be,
      u32.to_raw_le, u32.to_raw_be, f32raw.to_raw_le, f32raw.to_raw_be, f64raw.to_raw_le,
      f64raw.to_raw_be]
  all_goals
    first
    | exact fun a ha => storeBytes_le_outside _ _ _ _ _ ha
    | exact fun a ha => storeBytes_be_outside _ _ _ _ _ ha
    | exact fun a ha => store3_outside _ _ _ _ _ _ ha

/-- Claim C9 witness: the fixture stream (S8, 2 channels), channel 0,
frame 3, writing the u8 value 200 over the 0x25-filled memory. -/
theorem claim9_set_sample_frame_effect_witness :
    ∃ m' : Mem, set_sample enc0 info0 w_started 0 3 (Val.vu8 200) mem37 = some (w_started, m') ∧
      ∀ a : ℕ, (a < sampleAddr w_started.channel_areas 0 3 ∨
        sampleAddr w_started.channel_areas 0 3 + bytesPerSample info0.format ≤ a) →
        m' a = mem37 a :=
  claim9_set_sample_frame_effect enc0 info0 w_started 0 3 (Val.vu8 200) mem37 rfl (by decide)
    (by decide) (by decide)
